import Mathlib

/-!
Verification model of the DBW (drive-by-wire) node in
src/ros/src/twist_controller/dbw_node.py.

The development has two layers.

1. A control-flow model over ℚ of the DBWNode class: its mutable state
   (subscriber fields, latch/bookkeeping fields), the callbacks, one
   iteration of the 10 Hz loop body (lines 88 to 136), and the publish
   method (lines 139 to 161).  The external Controller.control collaborator
   is a function parameter, and the numeric pipeline inside Compute_CTE
   (frame transform, cubic fit, clamping) is abstracted by a function
   parameter, since no control-flow property depends on the numbers it
   returns.  Scalar values are modelled as exact rationals; a dereference
   of a never-received (None) input is modelled as an explicit error, as
   it raises an AttributeError in the Python source.

2. A geometric model over ℝ of the inside of Compute_CTE (lines 179 to
   239): the world-to-body transform of each waypoint, and the clamped
   CTE / heading-error post-processing of the fitted cubic coefficients.
   The least-squares fit performed by np.polyfit is characterised by the
   predicate IsLSQFit (a global minimiser of the sum of squared
   residuals), and math.atan2 is defined by its standard case split.
-/

namespace DBW

/-- A waypoint position in the world frame, as consumed by Compute_CTE
(only the x and y of wpt.pose.pose.position are read, lines 193 to 194). -/
abbrev Wpt := ℚ × ℚ

/-- The (x, y) of self.current_pose (only fields read, lines 183 to 184). -/
abbrev PosePt := ℚ × ℚ

/-- The orientation quaternion self.current_orient (x, y, z, w), line 186. -/
abbrev Orient := ℚ × ℚ × ℚ × ℚ

/-- A TwistStamped twist: only the linear.x and angular.z components are
ever read by the loop (lines 89 to 92). -/
structure Twist where
  linear_x : ℚ
  angular_z : ℚ
deriving DecidableEq

/-- The mutable instance fields of DBWNode set up in __init__
(lines 65 to 81).  Option models the Python None initialisation of the
subscriber-fed fields. -/
structure DBWState where
  dbw_enabled : Bool
  current_velocity : Option Twist
  finalwpts : Option (List Wpt)
  current_pose : Option PosePt
  current_orient : Option Orient
  twist_cmd : Option Twist
  CTE : ℚ
  heading_err : ℚ
  throttle_prev : ℚ
  steer_prev : ℚ
  brake_prev : ℚ
  brake_new : ℚ
  current_velocity_prev : ℚ
  current_velocity_new : ℚ
  prevtime : ℚ
deriving DecidableEq

/-- The initial state built by __init__ (lines 65 to 81); t0 is the value
returned by rospy.get_time() at line 81. -/
def initState (t0 : ℚ) : DBWState :=
  { dbw_enabled := false
    current_velocity := none
    finalwpts := none
    current_pose := none
    current_orient := none
    twist_cmd := none
    CTE := 0
    heading_err := 0
    throttle_prev := 0
    steer_prev := 0
    brake_prev := 0
    brake_new := 0
    current_velocity_prev := 0
    current_velocity_new := 0
    prevtime := t0 }

/-- Ways a tick body can raise an unguarded Python exception: reading an
attribute of a never-received (None) message, or np.polyfit rejecting an
empty coordinate vector (TypeError). -/
inductive TickErr
  | twistCmdNone
  | poseNone
  | orientNone
  | wptsNone
  | polyfitEmpty
deriving DecidableEq

/-- What publish emitted on each channel: some v when the corresponding
publisher was invoked with command value v, none when the channel was
skipped by the latch comparison. -/
structure PublishRecord where
  throttle : Option ℚ
  steer : Option ℚ
  brake : Option ℚ
deriving DecidableEq

/-- The diagnostic quantities computed by the loop body
(lines 118 to 127). -/
structure Diag where
  dt : ℚ
  accel_meas : ℚ
  decel_calc : ℚ
deriving DecidableEq

/-- Outcome of one successful loop iteration: the updated state, the
publish record (none when publish was not called at all, i.e. the tick
was skipped or dbw_status was false), and the diagnostics (none when the
tick body was skipped). -/
structure TickResult where
  state : DBWState
  published : Option PublishRecord
  diag : Option Diag
deriving DecidableEq

/-- Signature of the external Controller.control collaborator
(called at lines 102 to 108). -/
abbrev ControlFn := ℚ → ℚ → ℚ → ℚ → ℚ → ℚ → Bool → ℚ × ℚ × ℚ

/-- Abstraction of the numeric pipeline inside Compute_CTE (euler
extraction, world-to-body transform, np.polyfit, clamping): a total
function from the pose, the orientation and the waypoint list to the
returned (CTE, heading error) pair.  np.polyfit returns a least-squares
solution for every nonempty input (emitting only a RankWarning when the
system is rank deficient), so totality on nonempty lists is faithful;
the empty list is handled separately (TickErr.polyfitEmpty). -/
abbrev CTEPipe := PosePt → Orient → List Wpt → ℚ × ℚ

/-- rospy.get_param defaults, lines 39 and 44. -/
def vehicle_mass : ℚ := 173635 / 100

/-- Wheel radius default, line 44. -/
def wheel_radius : ℚ := 2413 / 10000

/-- The publish method, lines 139 to 161: each channel is compared against
its stored previous value and emitted only when different.  Note that the
method reads throttle_prev, steer_prev and brake_prev but never writes
them. -/
def publish (s : DBWState) (throttle brake steer : ℚ) : PublishRecord :=
  { throttle := if s.throttle_prev ≠ throttle then some throttle else none
    steer := if s.steer_prev ≠ steer then some steer else none
    brake := if s.brake_prev ≠ brake then some brake else none }

/-- Control-flow skeleton of Compute_CTE (lines 179 to 239): reading
self.current_pose.x with current_pose = None (line 183) or
self.current_orient.x with current_orient = None (line 186) raises an
AttributeError; iterating over finalwpts = None (line 192) raises a
TypeError; np.polyfit on an empty vector (line 203) raises a TypeError.
Otherwise the numeric pipeline produces the (CTE, heading error) pair. -/
def Compute_CTE (pipe : CTEPipe) (s : DBWState) : Except TickErr (ℚ × ℚ) :=
  match s.current_pose with
  | none => .error .poseNone
  | some p =>
    match s.current_orient with
    | none => .error .orientNone
    | some o =>
      match s.finalwpts with
      | none => .error .wptsNone
      | some w =>
        if w.isEmpty then .error .polyfitEmpty
        else .ok (pipe p o w)

/-- One iteration of the loop body (lines 88 to 136) at wall-clock time
`time` (the value rospy.get_time() returns at line 118).  The guard at
line 88 checks only finalwpts and current_velocity; when it passes,
line 89 dereferences self.twist_cmd, which raises an AttributeError when
no twist command was ever received.  The brake and velocity bookkeeping
(lines 112 to 116), the timestamp update and dt floor (lines 118 to 123)
and the diagnostics (lines 126 to 127) all run before the dbw_status
check at line 129; publish is called only when dbw_status is true. -/
def tick (control : ControlFn) (pipe : CTEPipe) (s : DBWState) (time : ℚ) :
    Except TickErr TickResult :=
  match s.finalwpts, s.current_velocity with
  | some _, some curVel =>
    match s.twist_cmd with
    | none => .error .twistCmdNone
    | some tc =>
      let proposed_linear_velocity := tc.linear_x
      let proposed_angular_velocity := tc.angular_z
      let current_linear_velocity := curVel.linear_x
      let current_angular_velocity := curVel.angular_z
      match Compute_CTE pipe s with
      | .error e => .error e
      | .ok ch =>
        let s1 := { s with CTE := ch.1, heading_err := ch.2 }
        let dbw_status := s1.dbw_enabled
        let tbs := control proposed_linear_velocity proposed_angular_velocity
          current_linear_velocity current_angular_velocity s1.CTE
          proposed_angular_velocity dbw_status
        let throttle := tbs.1
        let brake := tbs.2.1
        let steering := tbs.2.2
        let s2 := { s1 with
                    brake_prev := s1.brake_new
                    brake_new := brake
                    current_velocity_prev := s1.current_velocity_new
                    current_velocity_new := current_linear_velocity }
        let dt0 := time - s2.prevtime
        let s3 := { s2 with prevtime := time }
        let dt := if dt0 < 1 / 1000 then (1 : ℚ) / 10 else dt0
        let accel_meas := (s3.current_velocity_new - s3.current_velocity_prev) / dt
        let decel_calc := - s3.brake_prev / (wheel_radius * vehicle_mass)
        if dbw_status then
          .ok ⟨s3, some (publish s3 throttle brake steering), some ⟨dt, accel_meas, decel_calc⟩⟩
        else
          .ok ⟨s3, none, some ⟨dt, accel_meas, decel_calc⟩⟩
  | _, _ => .ok ⟨s, none, none⟩

/-- The subscriber callback for /final_waypoints (lines 163 to 164). -/
def finalwpts_cb (s : DBWState) (w : List Wpt) : DBWState :=
  { s with finalwpts := some w }

/-- The subscriber callback for /vehicle/dbw_enabled (lines 166 to 167). -/
def DBWEnabled_cb (s : DBWState) (b : Bool) : DBWState :=
  { s with dbw_enabled := b }

/-- The subscriber callback for /current_pose (lines 169 to 171): both the
position and the orientation are stored from the one message. -/
def CurrPose_cb (s : DBWState) (p : PosePt) (o : Orient) : DBWState :=
  { s with current_pose := some p, current_orient := some o }

/-- The subscriber callback for /current_velocity (lines 173 to 174). -/
def CurrVel_cb (s : DBWState) (t : Twist) : DBWState :=
  { s with current_velocity := some t }

/-- The subscriber callback for /twist_cmd (lines 176 to 177). -/
def TwistCmd_cb (s : DBWState) (t : Twist) : DBWState :=
  { s with twist_cmd := some t }

/-- An externally driven event: one asynchronous message arrival handled
by the corresponding callback, or one iteration of the fixed-period loop
at a given wall-clock time. -/
inductive Event
  | wpts (w : List Wpt)
  | pose (p : PosePt) (o : Orient)
  | vel (t : Twist)
  | twistCmd (t : Twist)
  | enable (b : Bool)
  | tick (time : ℚ)
deriving DecidableEq

/-- Effect of one event on the node state, together with the publish
record when the event is a loop iteration that called publish. -/
def step (control : ControlFn) (pipe : CTEPipe) (s : DBWState) :
    Event → Except TickErr (DBWState × Option PublishRecord)
  | .wpts w => .ok (finalwpts_cb s w, none)
  | .pose p o => .ok (CurrPose_cb s p o, none)
  | .vel t => .ok (CurrVel_cb s t, none)
  | .twistCmd t => .ok (TwistCmd_cb s t, none)
  | .enable b => .ok (DBWEnabled_cb s b, none)
  | .tick time => (tick control pipe s time).map fun r => (r.state, r.published)

/-- Run a sequence of events from a state, collecting every publish
record of a publish call that occurred.  An unguarded exception stops the
run (the node process dies); the state component is then none. -/
def runEvents (control : ControlFn) (pipe : CTEPipe) :
    DBWState → List Event → Option DBWState × List PublishRecord
  | s, [] => (some s, [])
  | s, e :: es =>
    match step control pipe s e with
    | .error _ => (none, [])
    | .ok sr =>
      let rest := runEvents control pipe sr.1 es
      (rest.1, sr.2.toList ++ rest.2)

/-- Whether an event list contains a dbw_enabled message. -/
def hasEnable : List Event → Bool
  | [] => false
  | .enable _ :: _ => true
  | _ :: es => hasEnable es

/-! ## Geometric model of the inside of Compute_CTE (lines 179 to 239) -/

/-- math.atan2, by its standard case split on the quadrant. -/
noncomputable def atan2 (y x : ℝ) : ℝ :=
  if 0 < x then Real.arctan (y / x)
  else if x < 0 ∧ 0 ≤ y then Real.arctan (y / x) + Real.pi
  else if x < 0 ∧ y < 0 then Real.arctan (y / x) - Real.pi
  else if x = 0 ∧ 0 < y then Real.pi / 2
  else if x = 0 ∧ y < 0 then -(Real.pi / 2)
  else 0

/-- np.polyval for the degree-3 coefficient vector [a, b, c, d] (highest
power first), by the Horner scheme numpy uses (line 231). -/
def polyval3 (a b c d x : ℝ) : ℝ :=
  ((a * x + b) * x + c) * x + d

/-- The world-to-body conversion applied to one waypoint (lines 187 and
193 to 200): yaw is sign flipped at line 187, the position delta is
computed at lines 193 to 194, and lines 196 to 197 apply the rotation
matrix for the flipped yaw to the delta. -/
noncomputable def localTransform (gx gy yaw_q : ℝ) (w : ℝ × ℝ) : ℝ × ℝ :=
  let yaw := -1 * yaw_q
  let del_x := w.1 - gx
  let del_y := w.2 - gy
  (del_x * Real.cos yaw - del_y * Real.sin yaw,
   del_x * Real.sin yaw + del_y * Real.cos yaw)

/-- The standard counterclockwise rotation of a plane vector by an angle,
the convention the source itself uses at lines 196 to 197. -/
noncomputable def rotate (phi : ℝ) (v : ℝ × ℝ) : ℝ × ℝ :=
  (v.1 * Real.cos phi - v.2 * Real.sin phi,
   v.1 * Real.sin phi + v.2 * Real.cos phi)

/-- Post-processing of the fitted coefficients (lines 220 to 239):
slope := coeff_3rd[2]; heading error := atan2(slope, 1.0) clamped to
plus or minus pi over two by the two ifs at lines 226 to 229; CTE :=
np.polyval(coeff_3rd, 0.0) clamped to plus or minus 5 by the two ifs at
lines 234 to 237; returned in the order (CTE, heading error). -/
noncomputable def postFit (a b c d : ℝ) : ℝ × ℝ :=
  let slope := c
  let heading_err0 := atan2 slope 1
  let heading_err1 := if heading_err0 > Real.pi / 2 then Real.pi / 2 else heading_err0
  let heading_err2 := if heading_err1 < -(Real.pi / 2) then -(Real.pi / 2) else heading_err1
  let CTE0 := polyval3 a b c d 0
  let CTE1 := if CTE0 > 5 then (5 : ℝ) else CTE0
  let CTE2 := if CTE1 < -5 then (-5 : ℝ) else CTE1
  (CTE2, heading_err2)

/-- Compute_CTE over the reals, parametric in the cubic least-squares fit
performed by np.polyfit at line 203: transform every waypoint into the
body frame, fit, then post-process the coefficients. -/
noncomputable def Compute_CTE_geom (fit : List (ℝ × ℝ) → ℝ × ℝ × ℝ × ℝ)
    (gx gy yaw_q : ℝ) (wpts : List (ℝ × ℝ)) : ℝ × ℝ :=
  let locals := wpts.map (localTransform gx gy yaw_q)
  let co := fit locals
  postFit co.1 co.2.1 co.2.2.1 co.2.2.2

/-- Sum of squared residuals of a cubic over a point list: the objective
np.polyfit minimises. -/
def sse (pts : List (ℝ × ℝ)) (a b c d : ℝ) : ℝ :=
  (pts.map fun q => (q.2 - polyval3 a b c d q.1) ^ 2).sum

/-- A coefficient vector is a least-squares cubic fit of a point list
when it globally minimises the sum of squared residuals; np.polyfit
returns such a minimiser. -/
def IsLSQFit (pts : List (ℝ × ℝ)) (co : ℝ × ℝ × ℝ × ℝ) : Prop :=
  ∀ a b c d, sse pts co.1 co.2.1 co.2.2.1 co.2.2.2 ≤ sse pts a b c d

/-! ## Helper lemmas -/

/-- With a positive second argument, math.atan2 reduces to the arctangent
of the ratio; in particular atan2(y, 1.0) = arctan y. -/
theorem atan2_one (y : ℝ) : atan2 y 1 = Real.arctan y := by
  simp [atan2]

/-- Closed form of the post-processing: the heading clamp never binds
because arctan already lies strictly inside the interval, and the CTE is
the constant coefficient d clamped to the interval [-5, 5]. -/
theorem postFit_eval (a b c d : ℝ) :
    postFit a b c d =
      (if d > 5 then (5 : ℝ) else if d < -5 then (-5 : ℝ) else d, Real.arctan c) := by
  have hpv : polyval3 a b c d 0 = d := by simp [polyval3]
  have hlt : Real.arctan c < Real.pi / 2 := Real.arctan_lt_pi_div_two c
  have hgt : -(Real.pi / 2) < Real.arctan c := Real.neg_pi_div_two_lt_arctan c
  simp only [postFit, hpv, atan2_one, Prod.mk.injEq]
  refine ⟨?_, ?_⟩
  · split_ifs <;> linarith
  · simp only [if_neg (not_lt.mpr hlt.le), if_neg (not_lt.mpr hgt.le)]

/-- The returned CTE always lies in [-5, 5]. -/
theorem postFit_fst_bounds (a b c d : ℝ) :
    -5 ≤ (postFit a b c d).1 ∧ (postFit a b c d).1 ≤ 5 := by
  rw [postFit_eval]
  dsimp only
  split_ifs <;> constructor <;> linarith

/-- The returned heading error always lies in [-pi/2, pi/2]. -/
theorem postFit_snd_bounds (a b c d : ℝ) :
    -(Real.pi / 2) ≤ (postFit a b c d).2 ∧ (postFit a b c d).2 ≤ Real.pi / 2 := by
  rw [postFit_eval]
  exact ⟨(Real.neg_pi_div_two_lt_arctan c).le, (Real.arctan_lt_pi_div_two c).le⟩

/-- A sum of squared residuals is nonnegative. -/
theorem sse_nonneg (pts : List (ℝ × ℝ)) (a b c d : ℝ) : 0 ≤ sse pts a b c d := by
  apply List.sum_nonneg
  intro x hx
  simp only [List.mem_map] at hx
  obtain ⟨q, _, rfl⟩ := hx
  positivity

/-- When a least-squares objective is zero, every residual vanishes. -/
theorem sse_eq_zero_residuals {pts : List (ℝ × ℝ)} {a b c d : ℝ}
    (h : sse pts a b c d = 0) :
    ∀ q ∈ pts, q.2 = polyval3 a b c d q.1 := by
  intro q hq
  have hmem : (q.2 - polyval3 a b c d q.1) ^ 2 ∈
      pts.map fun r => (r.2 - polyval3 a b c d r.1) ^ 2 :=
    List.mem_map_of_mem _ hq
  have hz : (q.2 - polyval3 a b c d q.1) ^ 2 = 0 :=
    List.all_zero_of_le_zero_le_of_sum_eq_zero
      (by
        intro x hx
        simp only [List.mem_map] at hx
        obtain ⟨r, _, rfl⟩ := hx
        positivity)
      h hmem
  have := pow_eq_zero_iff (n := 2) (by norm_num) |>.mp hz
  linarith [this]

/-- A cubic that vanishes at four pairwise distinct points is the zero
polynomial, coefficient by coefficient. -/
theorem cubic_vanish {a b c d x0 x1 x2 x3 : ℝ}
    (h01 : x0 ≠ x1) (h02 : x0 ≠ x2) (h03 : x0 ≠ x3)
    (h12 : x1 ≠ x2) (h13 : x1 ≠ x3) (h23 : x2 ≠ x3)
    (e0 : polyval3 a b c d x0 = 0) (e1 : polyval3 a b c d x1 = 0)
    (e2 : polyval3 a b c d x2 = 0) (e3 : polyval3 a b c d x3 = 0) :
    a = 0 ∧ b = 0 ∧ c = 0 ∧ d = 0 := by
  classical
  set p : Polynomial ℝ := Polynomial.C a * Polynomial.X ^ 3 + Polynomial.C b * Polynomial.X ^ 2
    + Polynomial.C c * Polynomial.X + Polynomial.C d with hp
  have heval : ∀ x : ℝ, p.eval x = polyval3 a b c d x := by
    intro x
    simp only [hp, polyval3, Polynomial.eval_add, Polynomial.eval_mul, Polynomial.eval_pow,
      Polynomial.eval_C, Polynomial.eval_X]
    ring
  have hcard : ({x0, x1, x2, x3} : Finset ℝ).card = 4 := by
    rw [Finset.card_insert_of_not_mem (by simp [h01, h02, h03]),
      Finset.card_insert_of_not_mem (by simp [h12, h13]),
      Finset.card_insert_of_not_mem (by simp [h23]), Finset.card_singleton]
  have hdeg : p.natDegree ≤ 3 := by
    rw [hp]
    compute_degree
  have hzero : p = 0 := by
    apply Polynomial.eq_zero_of_natDegree_lt_card_of_eval_eq_zero' p {x0, x1, x2, x3}
    · intro i hi
      rw [heval]
      simp only [Finset.mem_insert, Finset.mem_singleton] at hi
      rcases hi with rfl | rfl | rfl | rfl
      · exact e0
      · exact e1
      · exact e2
      · exact e3
    · rw [hcard]
      omega
  have hall : ∀ x : ℝ, polyval3 a b c d x = 0 := by
    intro x
    rw [← heval, hzero]
    simp
  have q0 := hall 0
  have q1 := hall 1
  have qm1 := hall (-1)
  have q2 := hall 2
  simp only [polyval3] at q0 q1 qm1 q2
  ring_nf at q0 q1 qm1 q2
  refine ⟨by linarith, by linarith, by linarith, by linarith⟩

/-- A loop iteration run while dbw_enabled is false never calls publish
and never changes the enable flag. -/
theorem tick_disabled (control : ControlFn) (pipe : CTEPipe) (s : DBWState) (t : ℚ)
    (hflag : s.dbw_enabled = false) (r : TickResult) (h : tick control pipe s t = .ok r) :
    r.published = none ∧ r.state.dbw_enabled = false := by
  unfold tick at h
  split at h
  · split at h
    · exact absurd h (by simp)
    · split at h
      · exact absurd h (by simp)
      · dsimp only at h
        rw [hflag] at h
        simp only [Bool.false_eq_true, if_false] at h
        cases h
        exact ⟨rfl, rfl⟩
  · cases h
    exact ⟨rfl, hflag⟩

/-- A non-enable event run while dbw_enabled is false produces no publish
and leaves the flag false. -/
theorem step_no_enable (control : ControlFn) (pipe : CTEPipe) (s : DBWState) (e : Event)
    (hflag : s.dbw_enabled = false) (he : ∀ b, e ≠ Event.enable b)
    (sr : DBWState × Option PublishRecord) (hstep : step control pipe s e = .ok sr) :
    sr.2 = none ∧ sr.1.dbw_enabled = false := by
  cases e with
  | wpts w =>
    cases hstep
    exact ⟨rfl, hflag⟩
  | pose p o =>
    cases hstep
    exact ⟨rfl, hflag⟩
  | vel t =>
    cases hstep
    exact ⟨rfl, hflag⟩
  | twistCmd t =>
    cases hstep
    exact ⟨rfl, hflag⟩
  | enable b => exact absurd rfl (he b)
  | tick time =>
    simp only [step, Except.map] at hstep
    cases htick : tick control pipe s time with
    | error err => rw [htick] at hstep; exact absurd hstep (by simp)
    | ok r =>
      rw [htick] at hstep
      cases hstep
      exact tick_disabled control pipe s time hflag r htick

/-- Running any event sequence that contains no dbw_enabled message from
a state with the flag down produces no publish call at all. -/
theorem runEvents_no_enable (control : ControlFn) (pipe : CTEPipe) :
    ∀ (es : List Event) (s : DBWState), s.dbw_enabled = false →
      hasEnable es = false → (runEvents control pipe s es).2 = [] := by
  intro es
  induction es with
  | nil =>
    intro s _ _
    rfl
  | cons e es ih =>
    intro s hflag hes
    have hee : ∀ b, e ≠ Event.enable b := by
      intro b hb
      subst hb
      simp [hasEnable] at hes
    have hes2 : hasEnable es = false := by
      cases e <;> simp_all [hasEnable]
    simp only [runEvents]
    cases hstep : step control pipe s e with
    | error err => rfl
    | ok sr =>
      obtain ⟨h1, h2⟩ := step_no_enable control pipe s e hflag hee sr hstep
      simp only [h1, Option.toList, List.nil_append]
      exact ih sr.1 h2 hes2

/-! ## Concrete fixtures for evaluation -/

/-- A constant external controller returning throttle 1/2, brake 20 and
steer 1/10 on every call. -/
def ctrl0 : ControlFn := fun _ _ _ _ _ _ _ => (1 / 2, 20, 1 / 10)

/-- A constant numeric pipeline returning CTE 0 and heading error 0. -/
def pipe0 : CTEPipe := fun _ _ _ => (0, 0)

/-- A state in which every input has been received, with four waypoints,
and dbw is enabled. -/
def readyState : DBWState :=
  { initState 0 with
    dbw_enabled := true
    current_velocity := some ⟨5, 0⟩
    finalwpts := some [(1, 0), (2, 0), (3, 0), (4, 0)]
    current_pose := some (0, 0)
    current_orient := some (0, 0, 0, 1)
    twist_cmd := some ⟨6, 0⟩ }

/-- The ready state with only three waypoints. -/
def readyState3 : DBWState :=
  { readyState with finalwpts := some [(1, 0), (2, 0), (3, 0)] }

/-- The ready state with an empty waypoint list. -/
def readyState0 : DBWState :=
  { readyState with finalwpts := some [] }

/-- The ready state with the enable flag down. -/
def disabledState : DBWState :=
  { readyState with dbw_enabled := false }

/-- A state in which path and velocity have been received but a twist
command never has. -/
def noTwistState : DBWState :=
  { initState 0 with
    dbw_enabled := true
    current_velocity := some ⟨5, 0⟩
    finalwpts := some [(1, 0), (2, 0), (3, 0), (4, 0)] }

/-! ## Claim theorems -/

/-- C1.  The claim states that when the controller returns the same
(throttle, brake, steer) triple on two consecutive enabled ticks, each
channel publishes exactly once across the two ticks.  The code violates
this: publish never writes throttle_prev or steer_prev (they stay at
their initial 0.0 forever), so with the constant controller output
(1/2, 20, 1/10) both ticks publish on the throttle and steer channels;
only the brake channel, whose previous value does advance through
brake_new, suppresses the second emission.  This theorem evaluates both
ticks at the failing input. -/
theorem c1_second_tick_republishes_throttle :
    (tick ctrl0 pipe0 readyState 1).map TickResult.published
      = .ok (some ⟨some (1 / 2), some (1 / 10), some 20⟩) ∧
    (tick ctrl0 pipe0 readyState 1).map
        (fun r => (tick ctrl0 pipe0 r.state 2).map TickResult.published)
      = .ok (.ok (some ⟨some (1 / 2), some (1 / 10), none⟩)) := by
  constructor <;>
    norm_num [tick, Compute_CTE, publish, readyState, initState, ctrl0, pipe0, Except.map]

/-- C2.  The claim states that the stored previous value of every
channel is initialized to zero (true) and updated on every tick to the
value the controller produced on the previous tick.  The code violates
the update half for throttle and steer: after a tick in which the
controller produced (1/2, 20, 1/10), throttle_prev and steer_prev still
hold 0, and they still hold 0 after a second tick, whereas brake_prev
does advance (to 0 after one tick, then to 20, the brake produced on the
first tick). -/
theorem c2_throttle_steer_prev_never_updated :
    (tick ctrl0 pipe0 readyState 1).map
        (fun r => (r.state.throttle_prev, r.state.steer_prev,
          r.state.brake_prev, r.state.brake_new))
      = .ok (0, 0, 0, 20) ∧
    (tick ctrl0 pipe0 readyState 1).map
        (fun r => (tick ctrl0 pipe0 r.state 2).map
          (fun r2 => (r2.state.throttle_prev, r2.state.steer_prev, r2.state.brake_prev)))
      = .ok (.ok (0, 0, 20)) := by
  constructor <;>
    norm_num [tick, Compute_CTE, publish, readyState, initState, ctrl0, pipe0, Except.map]

/-- C3.  The claim states that with fewer than 4 waypoints the estimator
fails explicitly and the tick publishes nothing.  The code has no such
guard: for any fit result whatsoever (np.polyfit does return a
rank-deficient least-squares solution for 1 to 3 points, raising only a
RankWarning), a tick over a 3-waypoint path completes and publishes, and
for an empty path the unguarded TypeError from np.polyfit kills the
loop; in neither case is there a distinct error with no publish. -/
theorem c3_short_path_still_publishes (pipe : CTEPipe) :
    (tick ctrl0 pipe readyState3 1).map (fun r => r.published.map PublishRecord.throttle)
      = .ok (some (some (1 / 2))) ∧
    tick ctrl0 pipe readyState0 1 = .error .polyfitEmpty := by
  constructor <;>
    norm_num [tick, Compute_CTE, publish, readyState3, readyState0, readyState,
      initState, ctrl0, Except.map]

/-- C3 counterexample.  A concrete 3-waypoint enabled tick with the
constant pipeline completes and publishes a throttle command, and a
concrete empty-path tick dies on the unguarded np.polyfit error; neither
is an explicit failure with no publish. -/
theorem c3_short_path_publishes_counterexample :
    (tick ctrl0 pipe0 readyState3 1).map (fun r => r.published.map PublishRecord.throttle)
      = .ok (some (some (1 / 2))) ∧
    tick ctrl0 pipe0 readyState0 1 = .error .polyfitEmpty := by
  constructor <;>
    norm_num [tick, Compute_CTE, publish, readyState3, readyState0, readyState,
      initState, ctrl0, pipe0, Except.map]

/-- C4 counterexample.  The claim states that a tick never raises a
fatal error for any combination of missing inputs.  With path and
velocity received but no twist command ever received, line 89
dereferences None and raises an unguarded AttributeError. -/
theorem c4_missing_twist_cmd_fatal :
    tick ctrl0 pipe0 noTwistState 1 = .error .twistCmdNone := rfl

/-- C4 amended.  When Path or Velocity has never been received the tick
body is skipped entirely: the state is unchanged, nothing is published
and no error is raised.  (The unamended claim fails only for the
combinations in which Path and Velocity are present but TwistCommand or
Pose is missing, which are fatal; see the counterexample.) -/
theorem c4_missing_path_or_velocity_skips (control : ControlFn) (pipe : CTEPipe)
    (s : DBWState) (time : ℚ) (h : s.finalwpts = none ∨ s.current_velocity = none) :
    tick control pipe s time = .ok ⟨s, none, none⟩ := by
  rcases h with h | h
  · simp [tick, h]
  · cases hw : s.finalwpts
    · simp [tick, hw]
    · simp [tick, hw, h]

/-- C4 witness: the freshly initialized state has no path and no
velocity, and its first tick is a silent skip. -/
theorem c4_missing_path_or_velocity_skips_witness :
    tick ctrl0 pipe0 (initState 0) 1 = .ok ⟨initState 0, none, none⟩ :=
  c4_missing_path_or_velocity_skips ctrl0 pipe0 (initState 0) 1 (Or.inl rfl)

/-- The per-waypoint transform as the claim words it: translate by
subtracting the current position, then rotate the result by the NEGATION
of the corrected yaw, the corrected yaw being -1 times the extracted
yaw. -/
noncomputable def claimTransform (gx gy yaw_q : ℝ) (w : ℝ × ℝ) : ℝ × ℝ :=
  let corrected := -1 * yaw_q
  rotate (-corrected) (w.1 - gx, w.2 - gy)

/-- C5 counterexample.  The code rotates the translated waypoint by the
corrected yaw itself, not by its negation: with the vehicle at the
origin, extracted yaw pi/2 and waypoint (1, 0), the code produces
(0, -1) while the claimed double-negated rotation produces (0, 1). -/
theorem c5_rotation_direction_counterexample :
    localTransform 0 0 (Real.pi / 2) (1, 0) ≠ claimTransform 0 0 (Real.pi / 2) (1, 0) := by
  simp only [localTransform, claimTransform, rotate, neg_one_mul, neg_neg, sub_zero,
    Real.cos_neg, Real.sin_neg, Real.sin_pi_div_two, Real.cos_pi_div_two]
  intro hEq
  have h2 := congrArg Prod.snd hEq
  norm_num at h2

/-- C5 amended.  For every waypoint the code subtracts the current
position and then rotates the delta by the corrected (sign-flipped) yaw
itself, i.e. by the negation of the extracted yaw; equivalently it is
the classical world-to-body change of coordinates for the extracted
yaw. -/
theorem c5_transform_rotates_by_corrected_yaw (gx gy yaw_q : ℝ) (w : ℝ × ℝ) :
    localTransform gx gy yaw_q w = rotate (-yaw_q) (w.1 - gx, w.2 - gy) ∧
    localTransform gx gy yaw_q w =
      ((w.1 - gx) * Real.cos yaw_q + (w.2 - gy) * Real.sin yaw_q,
       (w.2 - gy) * Real.cos yaw_q - (w.1 - gx) * Real.sin yaw_q) := by
  constructor
  · simp [localTransform, rotate, neg_one_mul]
  · simp only [localTransform, rotate, neg_one_mul, Real.cos_neg, Real.sin_neg,
      Prod.mk.injEq]
    constructor <;> ring

/-- C6.  Given the fitted coefficients (a, b, c, d), the post-processing
returns heading error atan2(c, 1.0) (whose clamp to [-pi/2, pi/2] never
binds but holds), and CTE equal to the polynomial evaluated at 0, which
is d, clamped to [-5, 5]; consequently every value the estimator returns
has CTE in [-5, 5] and heading error in [-pi/2, pi/2], for every fit and
every path. -/
theorem c6_clamped_cte_and_heading : ∀ a b c d : ℝ,
    (postFit a b c d).2 = atan2 c 1 ∧
    polyval3 a b c d 0 = d ∧
    (postFit a b c d).1 = (if d > 5 then (5 : ℝ) else if d < -5 then (-5 : ℝ) else d) ∧
    (-5 ≤ (postFit a b c d).1 ∧ (postFit a b c d).1 ≤ 5) ∧
    (-(Real.pi / 2) ≤ (postFit a b c d).2 ∧ (postFit a b c d).2 ≤ Real.pi / 2) ∧
    ∀ (fit : List (ℝ × ℝ) → ℝ × ℝ × ℝ × ℝ) (gx gy yaw_q : ℝ) (wpts : List (ℝ × ℝ)),
      (-5 ≤ (Compute_CTE_geom fit gx gy yaw_q wpts).1 ∧
        (Compute_CTE_geom fit gx gy yaw_q wpts).1 ≤ 5) ∧
      (-(Real.pi / 2) ≤ (Compute_CTE_geom fit gx gy yaw_q wpts).2 ∧
        (Compute_CTE_geom fit gx gy yaw_q wpts).2 ≤ Real.pi / 2) := by
  intro a b c d
  refine ⟨?_, by simp [polyval3], ?_, postFit_fst_bounds a b c d,
    postFit_snd_bounds a b c d, ?_⟩
  · rw [postFit_eval, atan2_one]
  · rw [postFit_eval]
  · intro fit gx gy yaw_q wpts
    dsimp only [Compute_CTE_geom]
    exact ⟨postFit_fst_bounds _ _ _ _, postFit_snd_bounds _ _ _ _⟩

/-- C7.  On a tick whose body runs (all inputs present, nonempty path)
while the enable flag is false, no publish call occurs, while the
bookkeeping still advances: brake_prev takes the brake buffered from the
previous tick, brake_new takes the brake the controller just produced
(called with dbw_status false), the previous and new velocity slots
shift, and the stored timestamp becomes the current time. -/
theorem c7_disabled_tick_no_publish (control : ControlFn) (pipe : CTEPipe)
    (s : DBWState) (time : ℚ) (q : Wpt) (w : List Wpt) (v tc : Twist)
    (p : PosePt) (o : Orient)
    (hw : s.finalwpts = some (q :: w)) (hv : s.current_velocity = some v)
    (ht : s.twist_cmd = some tc) (hp : s.current_pose = some p)
    (ho : s.current_orient = some o) (hflag : s.dbw_enabled = false) :
    (tick control pipe s time).map TickResult.published = .ok none ∧
    (tick control pipe s time).map (fun r => r.state.brake_prev) = .ok s.brake_new ∧
    (tick control pipe s time).map (fun r => r.state.brake_new)
      = .ok (control tc.linear_x tc.angular_z v.linear_x v.angular_z
          (pipe p o (q :: w)).1 tc.angular_z false).2.1 ∧
    (tick control pipe s time).map (fun r => r.state.current_velocity_prev)
      = .ok s.current_velocity_new ∧
    (tick control pipe s time).map (fun r => r.state.current_velocity_new)
      = .ok v.linear_x ∧
    (tick control pipe s time).map (fun r => r.state.prevtime) = .ok time := by
  simp [tick, Compute_CTE, hw, hv, ht, hp, ho, hflag, Except.map]

/-- C7 witness at a concrete disabled state. -/
theorem c7_disabled_tick_no_publish_witness :
    (tick ctrl0 pipe0 disabledState 1).map TickResult.published = .ok none ∧
    (tick ctrl0 pipe0 disabledState 1).map (fun r => r.state.brake_prev) = .ok 0 ∧
    (tick ctrl0 pipe0 disabledState 1).map (fun r => r.state.brake_new) = .ok 20 ∧
    (tick ctrl0 pipe0 disabledState 1).map (fun r => r.state.current_velocity_prev)
      = .ok 0 ∧
    (tick ctrl0 pipe0 disabledState 1).map (fun r => r.state.current_velocity_new)
      = .ok 5 ∧
    (tick ctrl0 pipe0 disabledState 1).map (fun r => r.state.prevtime) = .ok 1 := by
  simpa [disabledState, readyState, initState, ctrl0, pipe0] using
    c7_disabled_tick_no_publish ctrl0 pipe0 disabledState 1 (1, 0) [(2, 0), (3, 0), (4, 0)]
      ⟨5, 0⟩ ⟨6, 0⟩ (0, 0) (0, 0, 0, 1) rfl rfl rfl rfl rfl rfl

/-- C8.  If every waypoint transformed into the body frame lies on the
local x axis (second coordinate 0), four of them ahead of the vehicle at
pairwise distinct x, and the fitted coefficients are a least-squares
cubic fit of the transformed points, then the estimator returns CTE 0
and heading error 0. -/
theorem c8_straight_path_zero_deviation (fit : List (ℝ × ℝ) → ℝ × ℝ × ℝ × ℝ)
    (gx gy yaw_q : ℝ) (wpts : List (ℝ × ℝ)) (x0 x1 x2 x3 : ℝ)
    (hy : ∀ q ∈ wpts.map (localTransform gx gy yaw_q), q.2 = 0)
    (hm0 : (x0, (0 : ℝ)) ∈ wpts.map (localTransform gx gy yaw_q))
    (hm1 : (x1, (0 : ℝ)) ∈ wpts.map (localTransform gx gy yaw_q))
    (hm2 : (x2, (0 : ℝ)) ∈ wpts.map (localTransform gx gy yaw_q))
    (hm3 : (x3, (0 : ℝ)) ∈ wpts.map (localTransform gx gy yaw_q))
    (hpos : 0 < x0 ∧ 0 < x1 ∧ 0 < x2 ∧ 0 < x3)
    (hdist : x0 ≠ x1 ∧ x0 ≠ x2 ∧ x0 ≠ x3 ∧ x1 ≠ x2 ∧ x1 ≠ x3 ∧ x2 ≠ x3)
    (hfit : IsLSQFit (wpts.map (localTransform gx gy yaw_q))
      (fit (wpts.map (localTransform gx gy yaw_q)))) :
    Compute_CTE_geom fit gx gy yaw_q wpts = (0, 0) := by
  set L := wpts.map (localTransform gx gy yaw_q) with hL
  rcases hco : fit L with ⟨A, B, Cc, D⟩
  rw [hco] at hfit
  have hzero : sse L A B Cc D = 0 := by
    have h1 : sse L A B Cc D ≤ sse L 0 0 0 0 := hfit 0 0 0 0
    have h2 : sse L 0 0 0 0 = 0 := by
      apply List.sum_eq_zero
      intro x hx
      simp only [List.mem_map] at hx
      obtain ⟨q, hq, rfl⟩ := hx
      have hq2 := hy q hq
      simp [polyval3, hq2]
    exact le_antisymm (h2 ▸ h1) (sse_nonneg L A B Cc D)
  have hres := sse_eq_zero_residuals hzero
  have e0 : polyval3 A B Cc D x0 = 0 := by simpa using (hres (x0, 0) hm0).symm
  have e1 : polyval3 A B Cc D x1 = 0 := by simpa using (hres (x1, 0) hm1).symm
  have e2 : polyval3 A B Cc D x2 = 0 := by simpa using (hres (x2, 0) hm2).symm
  have e3 : polyval3 A B Cc D x3 = 0 := by simpa using (hres (x3, 0) hm3).symm
  obtain ⟨-, -, hC, hD⟩ := cubic_vanish hdist.1 hdist.2.1 hdist.2.2.1 hdist.2.2.2.1
    hdist.2.2.2.2.1 hdist.2.2.2.2.2 e0 e1 e2 e3
  dsimp only [Compute_CTE_geom]
  rw [← hL, hco]
  dsimp only
  rw [postFit_eval, hC, hD]
  norm_num [Real.arctan_zero]

/-- C8 witness: four waypoints straight ahead on the x axis with the
zero fit, which is a least-squares fit of those points. -/
theorem c8_straight_path_zero_deviation_witness :
    Compute_CTE_geom (fun _ => ((0 : ℝ), 0, 0, 0)) 0 0 0 [(1, 0), (2, 0), (3, 0), (4, 0)]
      = (0, 0) := by
  have hmap : ([((1 : ℝ), (0 : ℝ)), (2, 0), (3, 0), (4, 0)]).map (localTransform 0 0 0)
      = [(1, 0), (2, 0), (3, 0), (4, 0)] := by
    norm_num [localTransform, Real.cos_zero, Real.sin_zero]
  refine c8_straight_path_zero_deviation (fun _ => ((0 : ℝ), 0, 0, 0)) 0 0 0
    [(1, 0), (2, 0), (3, 0), (4, 0)] 1 2 3 4 ?_ ?_ ?_ ?_ ?_ (by norm_num) (by norm_num) ?_
  · rw [hmap]
    intro q hq
    simp only [List.mem_cons, List.not_mem_nil, or_false] at hq
    rcases hq with rfl | rfl | rfl | rfl <;> rfl
  · rw [hmap]; simp
  · rw [hmap]; simp
  · rw [hmap]; simp
  · rw [hmap]; simp
  · intro a b c d
    have hz : sse ([((1 : ℝ), (0 : ℝ)), (2, 0), (3, 0), (4, 0)].map (localTransform 0 0 0))
        0 0 0 0 = 0 := by
      rw [hmap]
      norm_num [sse, polyval3]
    calc sse _ _ _ _ _ = 0 := hz
    _ ≤ sse _ a b c d := sse_nonneg _ a b c d

/-- C9.  On a tick whose body runs, when the measured elapsed time since
the previous tick is below one millisecond, the diagnostic computation
uses the substituted dt of 0.1 s (so the measured acceleration is the
velocity delta divided by 0.1), and the publish outcome of the tick does
not depend on the wall-clock time at all, hence not on the
substitution. -/
theorem c9_dt_floor_diagnostic_only (control : ControlFn) (pipe : CTEPipe)
    (s : DBWState) (time : ℚ) (q : Wpt) (w : List Wpt) (v tc : Twist)
    (p : PosePt) (o : Orient)
    (hw : s.finalwpts = some (q :: w)) (hv : s.current_velocity = some v)
    (ht : s.twist_cmd = some tc) (hp : s.current_pose = some p)
    (ho : s.current_orient = some o)
    (hdt : time - s.prevtime < 1 / 1000) :
    (tick control pipe s time).map (fun r => r.diag.map Diag.dt) = .ok (some (1 / 10)) ∧
    (tick control pipe s time).map (fun r => r.diag.map Diag.accel_meas)
      = .ok (some ((v.linear_x - s.current_velocity_new) / (1 / 10))) ∧
    ∀ t1 t2 : ℚ, (tick control pipe s t1).map TickResult.published
      = (tick control pipe s t2).map TickResult.published := by
  have hdt2 : time - s.prevtime < (1000 : ℚ)⁻¹ := by rwa [one_div] at hdt
  refine ⟨?_, ?_, ?_⟩
  · cases hflag : s.dbw_enabled <;>
      simp [tick, Compute_CTE, hw, hv, ht, hp, ho, hflag, Except.map] <;>
      exact fun hc => absurd hc (not_le.mpr hdt2)
  · cases hflag : s.dbw_enabled <;>
      simp [tick, Compute_CTE, hw, hv, ht, hp, ho, hflag, Except.map] <;>
      rw [if_pos hdt2]
    <;> field_simp
  · intro t1 t2
    cases hflag : s.dbw_enabled <;>
      simp [tick, Compute_CTE, publish, hw, hv, ht, hp, ho, hflag, Except.map]

/-- C9 witness: ticking the ready state (previous timestamp 0) again at
time 0 gives a measured dt of 0 below the millisecond floor. -/
theorem c9_dt_floor_diagnostic_only_witness :
    (tick ctrl0 pipe0 readyState 0).map (fun r => r.diag.map Diag.dt)
      = .ok (some (1 / 10)) ∧
    (tick ctrl0 pipe0 readyState 0).map (fun r => r.diag.map Diag.accel_meas)
      = .ok (some 50) ∧
    (tick ctrl0 pipe0 readyState 3).map TickResult.published
      = (tick ctrl0 pipe0 readyState 7).map TickResult.published := by
  have h := c9_dt_floor_diagnostic_only ctrl0 pipe0 readyState 0 (1, 0)
    [(2, 0), (3, 0), (4, 0)] ⟨5, 0⟩ ⟨6, 0⟩ (0, 0) (0, 0, 0, 1)
    rfl rfl rfl rfl rfl (by norm_num [readyState, initState])
  refine ⟨h.1, ?_, h.2.2 3 7⟩
  have h2 := h.2.1
  have harith : ((⟨5, 0⟩ : Twist).linear_x - readyState.current_velocity_new) / (1 / 10)
      = (50 : ℚ) := by
    norm_num [readyState, initState]
  rw [harith] at h2
  exact h2

/-- C10.  Starting from the freshly initialized node, whose enable flag
is false, any sequence of message arrivals and ticks that contains no
dbw_enabled message produces no publish call on any channel, however
many ticks run. -/
theorem c10_no_publish_before_first_enable (control : ControlFn) (pipe : CTEPipe)
    (t0 : ℚ) (es : List Event) (h : hasEnable es = false) :
    (runEvents control pipe (initState t0) es).2 = [] :=
  runEvents_no_enable control pipe es (initState t0) rfl h

/-- C10 witness: a concrete run that receives a path, a velocity, a
twist command and a pose and then ticks twice, without any enable
message, publishes nothing. -/
theorem c10_no_publish_before_first_enable_witness :
    hasEnable [Event.wpts [(1, 0), (2, 0), (3, 0), (4, 0)], Event.vel ⟨5, 0⟩,
        Event.twistCmd ⟨6, 0⟩, Event.pose (0, 0) (0, 0, 0, 1),
        Event.tick 1, Event.tick 2] = false ∧
    (runEvents ctrl0 pipe0 (initState 0)
        [Event.wpts [(1, 0), (2, 0), (3, 0), (4, 0)], Event.vel ⟨5, 0⟩,
          Event.twistCmd ⟨6, 0⟩, Event.pose (0, 0) (0, 0, 0, 1),
          Event.tick 1, Event.tick 2]).2 = [] :=
  ⟨rfl, c10_no_publish_before_first_enable ctrl0 pipe0 0 _ rfl⟩

end DBW
